import Mathlib

/-!
Verification of the retrieval-and-response orchestration pipeline of the
myAI3 repository, shallowly embedded in Lean 4.

The repository keeps several versions of the chat route side by side:

* `route.ts` first segment: a streaming handler (`POST_stream` below) that
  probes the vector database and, when the probe is empty or fails, adds the
  web-search tool to the tool set given to the generator;
* `route.ts` second segment: a synchronous handler (`POST_sync` below) that
  always answers with a JSON payload of shape
  probeMatches / assistant_text / used_web_search / error;
* `unnamed/part_002`: a streaming handler (`POST_p002` below) with a
  `normalizeMatches` normalizer, a `buildSourceSummary` context assembler and
  a benign no-user-text terminal;
* `route.ts` fourth segment: the lazy-import handler with the `makeToolLike`
  duck-typing wrapper;
* `lib/pinecone.ts`: two variants (Cohere and OpenAI embedders) of
  `searchPinecone`;
* `tools/web-search.ts` second segment: one more synchronous route whose
  private copy of `normalizeMatches` probes the candidate shapes in a
  different order (`normalizeMatchesWS` below).

JavaScript values are modelled by the inductive type `JVal`; collaborator
calls (moderation classifier, vector index, generator) are modelled as
environment-supplied functions returning `Except` so that a thrown exception
is an explicit `.error`.  Each handler also returns a `Calls` record counting
how many times each collaborator was invoked, incremented exactly at the
source locations where the corresponding `await` happens.
-/

/-- A JavaScript runtime value: `undefined`, `null`, booleans, numbers
(abstracted to `Int`; no claim depends on fractional scores), strings,
arrays and plain objects (ordered field lists). -/
inductive JVal where
  | undefV : JVal
  | null : JVal
  | bool : Bool → JVal
  | num : Int → JVal
  | str : String → JVal
  | arr : List JVal → JVal
  | obj : List (String × JVal) → JVal

/-- JavaScript truthiness: `undefined`, `null`, `false`, `0` and `""` are
falsy; arrays and objects (empty ones included) are truthy. -/
def JVal.truthy : JVal → Bool
  | .undefV => false
  | .null => false
  | .bool b => b
  | .num n => n != 0
  | .str s => s != ""
  | .arr _ => true
  | .obj _ => true

/-- Whether a value is `null` or `undefined` (the values skipped by the
JavaScript nullish-coalescing operator). -/
def JVal.isNullish : JVal → Bool
  | .undefV => true
  | .null => true
  | _ => false

/-- Property access `v.k`: field lookup on objects, `undefined` otherwise
(every use site in the embedded code is guarded so that access on a nullish
value cannot be reached, or is behind optional chaining). -/
def JVal.get (v : JVal) (k : String) : JVal :=
  match v with
  | .obj fs =>
    match fs.find? (fun p => p.1 == k) with
    | some p => p.2
    | none => .undefV
  | _ => .undefV

/-- `Array.isArray` refined to the array payload. -/
def JVal.asArr : JVal → Option (List JVal)
  | .arr xs => some xs
  | _ => none

/-- The nullish-coalescing operator `a ?? b`. -/
def jvCoalesce (a b : JVal) : JVal :=
  if a.isNullish then b else a

/-- Optional-chained two-step access `m?.a?.b`. -/
def getPath2 (m : JVal) (a b : String) : JVal :=
  (m.get a).get b

/-- `normalizeMatches` as defined identically in `route.ts` (second segment,
lines 167-177) and `unnamed/part_002` (lines 22-32): first the direct array,
then the `matches`, `results`, `data`, `items` fields, then the nested
`body.matches` and `body.results`, else the empty array. -/
def normalizeMatches (resp : JVal) : List JVal :=
  if resp.truthy = false then []
  else
    (((((((resp.asArr).orElse
      (fun _ => (resp.get "matches").asArr)).orElse
      (fun _ => (resp.get "results").asArr)).orElse
      (fun _ => (resp.get "data").asArr)).orElse
      (fun _ => (resp.get "items").asArr)).orElse
      (fun _ => ((resp.get "body").get "matches").asArr)).orElse
      (fun _ => ((resp.get "body").get "results").asArr)).getD []

/-- The private `normalizeMatches` copy of `tools/web-search.ts` (second
segment, lines 80-90): same probes, but `items` is tried last, after the
nested `body.matches` and `body.results`. -/
def normalizeMatchesWS (resp : JVal) : List JVal :=
  if resp.truthy = false then []
  else
    (((((((resp.asArr).orElse
      (fun _ => (resp.get "matches").asArr)).orElse
      (fun _ => (resp.get "results").asArr)).orElse
      (fun _ => (resp.get "data").asArr)).orElse
      (fun _ => ((resp.get "body").get "matches").asArr)).orElse
      (fun _ => ((resp.get "body").get "results").asArr)).orElse
      (fun _ => (resp.get "items").asArr)).getD []

/-- Modelled from the wording of the specification (section 4.3): the probe
locations in the exact priority order the spec states — direct sequence,
`matches`, `results`, `data`, `items`, `body.matches`, `body.results`. -/
def specProbes (x : JVal) : List JVal :=
  [x, x.get "matches", x.get "results", x.get "data", x.get "items",
   (x.get "body").get "matches", (x.get "body").get "results"]

/-- Modelled from the wording of the specification (section 4.3): return the
first probe location holding an array, else the empty sequence. -/
def normSpec (x : JVal) : List JVal :=
  ((specProbes x).findSome? JVal.asArr).getD []

theorem normSpec_of_not_truthy (x : JVal) (h : x.truthy = false) :
    normSpec x = [] := by
  cases x <;> simp_all [JVal.truthy, normSpec, specProbes, JVal.get,
    JVal.asArr, List.findSome?]

theorem normalizeMatches_eq_normSpec (x : JVal) :
    normalizeMatches x = normSpec x := by
  by_cases h : x.truthy = false
  · rw [normalizeMatches, if_pos h, normSpec_of_not_truthy x h]
  · rw [normalizeMatches, if_neg h]
    simp only [normSpec, specProbes, List.findSome?]
    cases x.asArr <;>
      cases (x.get "matches").asArr <;>
      cases (x.get "results").asArr <;>
      cases (x.get "data").asArr <;>
      cases (x.get "items").asArr <;>
      cases ((x.get "body").get "matches").asArr <;>
      cases ((x.get "body").get "results").asArr <;>
      rfl

/-- Characters removed by `String.prototype.trim` (the ASCII whitespace the
embedded code can meet in chat text). -/
def jsIsWS (c : Char) : Bool :=
  c = ' ' || c = '\n' || c = '\t' || c = '\r'

/-- `String.prototype.trim`: strip whitespace from both ends. -/
def jsTrim (s : String) : String :=
  ⟨((s.data.dropWhile jsIsWS).reverse.dropWhile jsIsWS).reverse⟩

/-- `String.prototype.slice(0, n)`: the first `n` characters. -/
def jsSlice (s : String) (n : Nat) : String :=
  ⟨s.data.take n⟩

/-- `replace(/\n/g, " ")`: every newline becomes a space. -/
def newlineToSpace (s : String) : String :=
  ⟨s.data.map (fun c => if c = '\n' then ' ' else c)⟩

mutual

/-- JavaScript string coercion `String(v)` / template-literal interpolation:
strings unchanged, numbers and booleans printed, `null` / `undefined` named,
arrays joined with commas, plain objects printed as `[object Object]`. -/
def jsToString : JVal → String
  | .undefV => "undefined"
  | .null => "null"
  | .bool true => "true"
  | .bool false => "false"
  | .num n => toString n
  | .str s => s
  | .arr xs => jsArrToString xs
  | .obj _ => "[object Object]"

/-- `Array.prototype.toString` = `join(",")`, where `null` and `undefined`
elements print as the empty string. -/
def jsArrToString : List JVal → String
  | [] => ""
  | [.null] => ""
  | [.undefV] => ""
  | [x] => jsToString x
  | .null :: y :: rest => "," ++ jsArrToString (y :: rest)
  | .undefV :: y :: rest => "," ++ jsArrToString (y :: rest)
  | x :: y :: rest => jsToString x ++ "," ++ jsArrToString (y :: rest)

end

/-- The text a match contributes to a bullet excerpt:
`m?.metadata?.text ?? m?.text ?? ""` coerced to a string. -/
def matchTextOf (m : JVal) : String :=
  jsToString (jvCoalesce (getPath2 m "metadata" "text")
    (jvCoalesce (m.get "text") (.str "")))

/-- The excerpt of one bullet in `buildSourceSummary` of `unnamed/part_002`:
`(...).toString().replace(/\n/g, " ").slice(0, 300)`. -/
def p2Excerpt (m : JVal) : String :=
  jsSlice (newlineToSpace (matchTextOf m)) 300

/-- One bullet line of `buildSourceSummary` (`unnamed/part_002`, lines
57-68): name from `metadata.source_name ?? source_name ?? metadata.title`,
with the template default when that chain is falsy, then the optional url
and the optional quoted excerpt. -/
def bulletP2 (i : Nat) (m : JVal) : String :=
  let nameV := jvCoalesce (getPath2 m "metadata" "source_name")
    (jvCoalesce (m.get "source_name") (getPath2 m "metadata" "title"))
  let name := if nameV.truthy then jsToString nameV
    else "Source " ++ toString (i + 1)
  let url := jvCoalesce (getPath2 m "metadata" "source_url")
    (jvCoalesce (m.get "source_url") (.str ""))
  let excerpt := p2Excerpt m
  "- " ++ name ++ (if url.truthy then " — " ++ jsToString url else "")
    ++ (if excerpt == "" then "" else " — excerpt: \"" ++ excerpt ++ "\"")

/-- The bullet lines of `buildSourceSummary`: one per index below
`min(matches.length, maxEntries)`. -/
def p2Bullets (ms : List JVal) (maxEntries : Nat) : List String :=
  (List.range (min ms.length maxEntries)).map
    (fun i => bulletP2 i (ms.getD i .undefV))

/-- `buildSourceSummary` of `unnamed/part_002`: the empty string on an empty
(or non-array) input, else the header line followed by the bullet lines,
joined with newlines. -/
def buildSourceSummary (ms : List JVal) (maxEntries : Nat) : String :=
  if ms.isEmpty then ""
  else String.intercalate "\n"
    ("Sources retrieved from vector DB:" :: p2Bullets ms maxEntries)

/-- The excerpt of one bullet in the synchronous handler of `route.ts`
(line 320): `(...).toString().slice(0, 300).replace(/\n/g, " ")` — the same
characters as `p2Excerpt`, with slice and replace swapped. -/
def routeExcerpt (m : JVal) : String :=
  newlineToSpace (jsSlice (matchTextOf m) 300)

/-- One bullet line of the inline summary of the synchronous handler
(`route.ts`, lines 316-322): name from
`metadata.source_name ?? metadata.title ?? source_name ?? default`. -/
def bulletRoute (i : Nat) (m : JVal) : String :=
  let name := jvCoalesce (getPath2 m "metadata" "source_name")
    (jvCoalesce (getPath2 m "metadata" "title")
      (jvCoalesce (m.get "source_name")
        (.str ("Source " ++ toString (i + 1)))))
  let url := jvCoalesce (getPath2 m "metadata" "source_url")
    (jvCoalesce (m.get "source_url") (.str ""))
  let excerpt := routeExcerpt m
  "- " ++ jsToString name
    ++ (if url.truthy then " — " ++ jsToString url else "")
    ++ (if excerpt == "" then "" else " — excerpt: \"" ++ excerpt ++ "\"")

/-- The inline source summary of the synchronous handler (`route.ts`, lines
312-324): empty when there are no probe matches, else a header plus at most
five bullets. -/
def buildSummaryRoute (probeMatches : List JVal) : String :=
  if 0 < probeMatches.length then
    String.intercalate "\n"
      ("Retrieved sources (vector DB):" ::
        (List.range (min probeMatches.length 5)).map
          (fun i => bulletRoute i (probeMatches.getD i .undefV)))
  else ""

/-- One part of a chat message: only `text`-typed parts carry content the
pipeline reads; every other part type is opaque. -/
inductive MsgPart where
  | text : String → MsgPart
  | other : String → MsgPart

/-- A `UIMessage`: a role string and its ordered parts. -/
structure UIMessage where
  role : String
  parts : List MsgPart

/-- The effective text of a message: its `text` parts concatenated in order
(`.filter(type === "text").map(p => p.text).join("")`). -/
def msgText (m : UIMessage) : String :=
  String.join (m.parts.filterMap
    (fun p => match p with | .text t => some t | .other _ => none))

/-- `messages.filter(m => m.role === "user").pop()`. -/
def lastUser (msgs : List UIMessage) : Option UIMessage :=
  (msgs.filter (fun m => m.role == "user")).getLast?

/-- The concatenated text of the latest user message, the empty string when
there is none. -/
def latestUserText (msgs : List UIMessage) : String :=
  match lastUser msgs with
  | some m => msgText m
  | none => ""

/-- The verdict of the moderation classifier `isContentFlagged`. -/
structure ModerationVerdict where
  flagged : Bool
  denialMessage : Option String

/-- `dm || default`: JavaScript logical-or on the denial message — a missing
or empty string falls back to the default (used by the streaming handler). -/
def jsOrStr (dm : Option String) (dflt : String) : String :=
  match dm with
  | some s => if s == "" then dflt else s
  | none => dflt

/-- The external collaborators of one request, as the handlers see them.
`classify` is the moderation classifier, `vecExecute` the
`vectorDatabaseSearch.execute` tool call (taking the options record),
`probeCall` the direct `vectorDatabaseSearch(query, opts)` call of the first
streaming handler, `generate` the synchronous OpenAI chat-completion call.
A thrown exception is an `Except.error`.  `openaiKey` is
`process.env.OPENAI_API_KEY` with the empty string for "unset". -/
structure Env where
  classify : String → Except String ModerationVerdict
  vecExecute : JVal → Except String JVal
  probeCall : String → Except String JVal
  openaiKey : String
  generate : List (String × String) → Except String String
  systemPrompt : String

/-- `env` with the moderation classifier replaced. -/
def withClassify (env : Env) (c : String → Except String ModerationVerdict) :
    Env :=
  ⟨c, env.vecExecute, env.probeCall, env.openaiKey, env.generate,
   env.systemPrompt⟩

/-- How many times each collaborator was invoked while handling one
request. -/
structure Calls where
  classifier : Nat
  vector : Nat
  web : Nat
  generation : Nat

/-- The JSON payload of the synchronous handler. -/
structure ChatPayload where
  probeMatches : List JVal
  assistant_text : String
  used_web_search : Bool
  error : Option String

/-- A response of the synchronous handler: either a bare error JSON
(`\x7berror: ...\x7d` with a status) or a status plus structured payload. -/
inductive SyncResp where
  | errResp : Nat → String → SyncResp
  | payload : Nat → ChatPayload → SyncResp

/-- Whether a synchronous response is an error-shaped one. -/
def SyncResp.isErr : SyncResp → Bool
  | .errResp _ _ => true
  | .payload _ _ => false

/-- The options record `\x7b query, k: 5, namespace: undefined \x7d` passed to
`vectorDatabaseSearch.execute` by `runVectorProbe`. -/
def probeRecord (t : String) : JVal :=
  .obj [("query", .str t), ("k", .num 5), ("namespace", .undefV)]

/-- `(role, content)` rows for the OpenAI call (`toOpenAIMessages`): the
system prompt first when non-empty, then each message with its concatenated
text parts. -/
def toOpenAIMessages (msgs : List UIMessage) (systemPrompt : String) :
    List (String × String) :=
  (if systemPrompt == "" then [] else [("system", systemPrompt)])
    ++ msgs.map (fun m => (m.role, msgText m))

/-- The synchronous handler after the moderation stage (`route.ts`, second
segment, lines 298-369): probe the vector database (a thrown probe is caught
and becomes no matches), set `used_web_search` iff there are no matches,
build the inline source summary, append it as a system message, then either
call OpenAI (when a key is configured; a thrown call becomes an
"Assistant error: ..." text) or produce the deterministic fallback text.
The web-search collaborator is never called on any path. -/
def POST_sync_rest (env : Env) (messages : List UIMessage)
    (userText : String) : SyncResp × Calls :=
  let probeMatches : List JVal :=
    match env.vecExecute (probeRecord userText) with
    | .ok attempt => normalizeMatches attempt
    | .error _ => []
  let usedWebSearch := probeMatches.isEmpty
  let sourceSummary := buildSummaryRoute probeMatches
  let augmented := messages ++
    (if sourceSummary == "" then []
     else [⟨"system", [.text sourceSummary]⟩])
  let genCalls := if env.openaiKey == "" then 0 else 1
  let assistantText :=
    if env.openaiKey == "" then
      if 0 < probeMatches.length then
        "I found " ++ toString probeMatches.length
          ++ " document(s) that may help. See the \"Sources\" panel for direct download links and excerpts."
      else if usedWebSearch then
        "I couldn\x27t find relevant documents in the vector DB. Web search is enabled as a fallback, but no web results were requested in this synchronous endpoint."
      else
        "No documents found and no assistant model is configured. Please set OPENAI_API_KEY on the server to get full assistant responses."
    else
      match env.generate (toOpenAIMessages augmented env.systemPrompt) with
      | .ok t => t
      | .error e => "Assistant error: " ++ e
  (.payload 200 ⟨probeMatches, assistantText, usedWebSearch, none⟩,
   ⟨1, 1, 0, genCalls⟩)

/-- The synchronous handler `POST` (`route.ts`, second segment, lines
255-383): 400 on an empty message list, 400 on blank latest user text, then
moderation (a flagged verdict short-circuits into a 200 denial payload with
`used_web_search = false`; a thrown classifier call is caught and the
pipeline continues), then `POST_sync_rest`. -/
def POST_sync (env : Env) (messages : List UIMessage) : SyncResp × Calls :=
  if messages.isEmpty then
    (.errResp 400 "Missing or empty messages in request body", ⟨0, 0, 0, 0⟩)
  else
    let userText := latestUserText messages
    if userText == "" || jsTrim userText == "" then
      (.errResp 400 "No user text provided in latest message", ⟨0, 0, 0, 0⟩)
    else
      match env.classify userText with
      | .ok mod =>
        if mod.flagged then
          (.payload 200 ⟨[],
            mod.denialMessage.getD "Your message was flagged by moderation.",
            false, some "message flagged"⟩,
           ⟨1, 0, 0, 0⟩)
        else POST_sync_rest env messages userText
      | .error _ => POST_sync_rest env messages userText

/-- An outcome of the first streaming handler: a moderation-denial stream, a
`streamText` call with the given tool names, or the bottom fallback
`streamText` call (no user text) which always offers both tools. -/
inductive StreamResp where
  | denial : String → StreamResp
  | gen : List UIMessage → List String → StreamResp
  | fallbackGen : List UIMessage → List String → StreamResp

/-- `probeResults.length === 0` on an arbitrary value: true for an empty
array or empty string, or an object whose `length` field is the number 0;
anything else (missing `length` included) compares unequal to 0. -/
def jsLenIsZero : JVal → Bool
  | .arr xs => xs.isEmpty
  | .str s => s == ""
  | .obj fs =>
    match (JVal.obj fs).get "length" with
    | .num 0 => true
    | _ => false
  | _ => false

/-- The first streaming handler `POST` (`route.ts`, first segment, lines
19-139).  The moderation call is NOT guarded: a thrown classifier call
propagates out of the handler (`Except.error`).  The probe result decides
`includeWebSearch` (`!probeResults || probeResults.length === 0`, also set
when the probe throws); the handler itself never invokes the web-search
collaborator — it only chooses the tool-name set handed to `streamText`. -/
def POST_stream (env : Env) (messages : List UIMessage) :
    Except String StreamResp × Calls :=
  let textParts := latestUserText messages
  if textParts == "" then
    (.ok (.fallbackGen messages ["vectorDatabaseSearch", "webSearch"]),
     ⟨0, 0, 0, 1⟩)
  else
    match env.classify textParts with
    | .error e => (.error e, ⟨1, 0, 0, 0⟩)
    | .ok mod =>
      if mod.flagged then
        (.ok (.denial (jsOrStr mod.denialMessage
          "Your message violates our guidelines. I can\x27t answer that.")),
         ⟨1, 0, 0, 0⟩)
      else
        let includeWebSearch :=
          match env.probeCall textParts with
          | .error _ => true
          | .ok v => !v.truthy || jsLenIsZero v
        let tools :=
          if includeWebSearch then ["vectorDatabaseSearch", "webSearch"]
          else ["vectorDatabaseSearch"]
        (.ok (.gen messages tools), ⟨1, 1, 0, 1⟩)

/-- An outcome of the `unnamed/part_002` streaming handler: a bare error
JSON, a debug JSON (probe matches, source summary, a debug tag and the
optional denial message), a short streamed text, or a `streamText` call with
the augmented system prompt and the given tool names. -/
inductive P2Resp where
  | errorJson : Nat → String → P2Resp
  | debugJson : List JVal → String → String → Option String → P2Resp
  | stream : String → P2Resp
  | gen : String → List UIMessage → List String → P2Resp

/-- Whether a `part_002` outcome is an error-status response (only the bare
error JSON is; streamed texts and debug JSONs are 200-class). -/
def P2Resp.isErr : P2Resp → Bool
  | .errorJson _ _ => true
  | _ => false

/-- The `unnamed/part_002` handler after the moderation stage (lines
162-218): probe the vector database through its `runVectorProbe` (which
catches a thrown probe and returns no matches), build `buildSourceSummary`,
then either the debug JSON, the "no documents" stream when there are no
matches (web search is never called), or `streamText` with the system
prompt augmented by the summary and the single `vectorDatabaseSearch`
tool. -/
def POST_p002_rest (env : Env) (messages : List UIMessage)
    (userText : String) (debug : Bool) : P2Resp × Calls :=
  let probeMatches : List JVal :=
    match env.vecExecute (probeRecord userText) with
    | .ok res => normalizeMatches res
    | .error _ => []
  let sourceSummary := buildSourceSummary probeMatches 5
  if debug then
    (.debugJson probeMatches sourceSummary "raw vector probe output" none,
     ⟨1, 1, 0, 0⟩)
  else if probeMatches.isEmpty then
    (.stream "I couldn\x27t find relevant documents in the knowledge base. Please upload the document or try a different query.",
     ⟨1, 1, 0, 0⟩)
  else
    (.gen (if sourceSummary == "" then env.systemPrompt
           else env.systemPrompt ++ "\n\n" ++ sourceSummary)
       messages ["vectorDatabaseSearch"],
     ⟨1, 1, 0, 1⟩)

/-- The `unnamed/part_002` streaming handler `POST` (lines 93-234): 400
`Missing messages` on an empty list (debug mode answers JSON instead); a
blank latest user text yields a SUCCESS stream explaining that no user text
was received; a flagged verdict yields a denial stream with
`denialMessage ?? default`; a thrown classifier call is caught and the
pipeline continues into `POST_p002_rest`. -/
def POST_p002 (env : Env) (debug : Bool) (messages : List UIMessage) :
    P2Resp × Calls :=
  if messages.isEmpty then
    (if debug then .debugJson [] "" "no messages" none
     else .errorJson 400 "Missing messages", ⟨0, 0, 0, 0⟩)
  else
    let userText := latestUserText messages
    if userText == "" || jsTrim userText == "" then
      (if debug then .debugJson [] "" "no user text found" none
       else .stream "No user text received in the latest message.",
       ⟨0, 0, 0, 0⟩)
    else
      match env.classify userText with
      | .ok mod =>
        if mod.flagged then
          (if debug then
            .debugJson [] "" "message flagged by moderation" mod.denialMessage
           else
            .stream (mod.denialMessage.getD
              "Your message violates our guidelines. I can\x27t answer that."),
           ⟨1, 0, 0, 0⟩)
        else POST_p002_rest env messages userText debug
      | .error _ => POST_p002_rest env messages userText debug

/-- The collaborators of `searchPinecone` (`lib/pinecone.ts`): the embedding
provider call (Cohere or OpenAI, yielding the query vector) and the Pinecone
`index.query` call (vector, topK, optional namespace). `pineconeKey` is
`PINECONE_API_KEY` after the `|| ""` default. -/
structure PineEnv where
  pineconeKey : String
  embed : String → Except String (List Int)
  indexQuery : List Int → Nat → Option String → Except String JVal

/-- How many times `searchPinecone` contacted the embedding provider and the
vector index. -/
structure PineCalls where
  embeds : Nat
  queries : Nat

/-- The per-match projection of `searchPinecone`: keep `id` and `score`,
default `metadata` to an empty object, and pull `text` out of
`metadata.text ?? metadata.chunk ?? ""`. -/
def pineMapMatch (m : JVal) : JVal :=
  .obj [("id", m.get "id"), ("score", m.get "score"),
        ("metadata", jvCoalesce (m.get "metadata") (.obj [])),
        ("text", jvCoalesce (getPath2 m "metadata" "text")
          (jvCoalesce (getPath2 m "metadata" "chunk") (.str "")))]

/-- `searchPinecone`, Cohere variant (`lib/pinecone.ts`, first segment,
lines 24-66): when `COHERE_API_KEY` (after `|| ""`) is empty, return the
empty list at once — before the embedding call, before `getClient` and
before the index query.  Otherwise embed the query, build the client (a
missing `PINECONE_API_KEY` throws inside the try and is caught), query the
index and map the matches; every thrown step is caught and becomes the
empty list. -/
def searchPineconeCohere (cohereKey : String) (env : PineEnv) (query : String)
    (topKOpt : Option Nat) (nsOpt : Option String) : List JVal × PineCalls :=
  if cohereKey == "" then ([], ⟨0, 0⟩)
  else
    let topK := topKOpt.getD 5
    match env.embed query with
    | .error _ => ([], ⟨1, 0⟩)
    | .ok vector =>
      if env.pineconeKey == "" then ([], ⟨1, 0⟩)
      else
        match env.indexQuery vector topK nsOpt with
        | .error _ => ([], ⟨1, 1⟩)
        | .ok qr =>
          match (qr.get "matches").asArr with
          | some l => (l.map pineMapMatch, ⟨1, 1⟩)
          | none => ([], ⟨1, 1⟩)

/-- `searchPinecone`, OpenAI-embedder variant (`lib/pinecone.ts`, second
segment, lines 24-66): identical control flow with `OPENAI_API_KEY` as the
guarded embedding credential. -/
def searchPineconeOpenAI (openaiKey : String) (env : PineEnv) (query : String)
    (topKOpt : Option Nat) (nsOpt : Option String) : List JVal × PineCalls :=
  if openaiKey == "" then ([], ⟨0, 0⟩)
  else
    let topK := topKOpt.getD 5
    match env.embed query with
    | .error _ => ([], ⟨1, 0⟩)
    | .ok vector =>
      if env.pineconeKey == "" then ([], ⟨1, 0⟩)
      else
        match env.indexQuery vector topK nsOpt with
        | .error _ => ([], ⟨1, 1⟩)
        | .ok qr =>
          match (qr.get "matches").asArr with
          | some l => (l.map pineMapMatch, ⟨1, 1⟩)
          | none => ([], ⟨1, 1⟩)

/-- A value `makeToolLike` may receive (`route.ts`, fourth segment, lines
717-745): a falsy value, an object already exposing an `execute` method, a
plain callable `f(query, input)`, or any other (truthy, non-callable)
value. -/
inductive ToolVal where
  | nullv : ToolVal
  | toolObj : (JVal → Except String JVal) → ToolVal
  | fn : (JVal → JVal → Except String JVal) → ToolVal
  | other : JVal → ToolVal

/-- The query extracted by the wrapper:
`(input && (input.query ?? input)) ?? ""`. -/
def toolQuery (input : JVal) : JVal :=
  jvCoalesce
    (if input.truthy then jvCoalesce (input.get "query") input else input)
    (.str "")

/-- The `execute` closure `makeToolLike` builds around a plain function: it
calls `f(query, input)` and converts any thrown error into the empty
array — it never rejects. -/
def wrappedExec (f : JVal → JVal → Except String JVal) (input : JVal) :
    Except String JVal :=
  match f (toolQuery input) input with
  | .ok v => .ok v
  | .error _ => .ok (.arr [])

/-- `makeToolLike` (`route.ts`, fourth segment, lines 717-745): `undefined`
on a falsy input, an `execute`-bearing object returned unchanged, a plain
function wrapped into an `execute` object via `wrappedExec`, and anything
else returned as-is. -/
def makeToolLike : ToolVal → Option ToolVal
  | .nullv => none
  | .toolObj e => some (.toolObj e)
  | .fn f => some (.toolObj (wrappedExec f))
  | .other v => some (.other v)

/-- Modelled from the source order of the `web-search.ts` copy: its probe
locations with `items` last. -/
def specProbesWS (x : JVal) : List JVal :=
  [x, x.get "matches", x.get "results", x.get "data",
   (x.get "body").get "matches", (x.get "body").get "results",
   x.get "items"]

/-- First-array-wins reading of the `web-search.ts` probe order. -/
def normSpecWS (x : JVal) : List JVal :=
  ((specProbesWS x).findSome? JVal.asArr).getD []

theorem normSpecWS_of_not_truthy (x : JVal) (h : x.truthy = false) :
    normSpecWS x = [] := by
  cases x <;> simp_all [JVal.truthy, normSpecWS, specProbesWS, JVal.get,
    JVal.asArr, List.findSome?]

theorem normalizeMatchesWS_eq_normSpecWS (x : JVal) :
    normalizeMatchesWS x = normSpecWS x := by
  by_cases h : x.truthy = false
  · rw [normalizeMatchesWS, if_pos h, normSpecWS_of_not_truthy x h]
  · rw [normalizeMatchesWS, if_neg h]
    simp only [normSpecWS, specProbesWS, List.findSome?]
    cases x.asArr <;>
      cases (x.get "matches").asArr <;>
      cases (x.get "results").asArr <;>
      cases (x.get "data").asArr <;>
      cases ((x.get "body").get "matches").asArr <;>
      cases ((x.get "body").get "results").asArr <;>
      cases (x.get "items").asArr <;>
      rfl

/-- A value holding an array both under `items` and under `body.matches`:
the two `normalizeMatches` copies disagree on it. -/
def shapeItemsAndBody : JVal :=
  .obj [("items", .arr [.str "a"]),
        ("body", .obj [("matches", .arr [.str "b"])])]

/-- Claim C6 counterexample: the `normalizeMatches` copy in
`tools/web-search.ts` does NOT try the claimed priority order — on an input
with both an `items` array and a nested `body.matches` array it returns
`body.matches`, while the claimed order (and the `route.ts` copy) returns
`items`. -/
theorem C6_ws_priority_order_cex :
    normalizeMatchesWS shapeItemsAndBody = [.str "b"]
    ∧ normSpec shapeItemsAndBody = [.str "a"]
    ∧ normalizeMatchesWS shapeItemsAndBody ≠ normSpec shapeItemsAndBody := by
  refine ⟨rfl, rfl, ?_⟩
  intro h
  rw [show normalizeMatchesWS shapeItemsAndBody = [.str "b"] from rfl,
      show normSpec shapeItemsAndBody = [.str "a"] from rfl] at h
  simp at h

/-- Claim C6 as amended: the `normalizeMatches` copies in `route.ts` and
`unnamed/part_002` try exactly the claimed order — direct array, `matches`,
`results`, `data`, `items`, `body.matches`, `body.results` — returning the
first array found and the empty sequence otherwise (`null` and `undefined`
included); the copy in `tools/web-search.ts` behaves the same except that it
tries `items` last, after the nested `body` shapes. -/
theorem C6_priority_order_amended :
    (∀ x, normalizeMatches x = normSpec x)
    ∧ normalizeMatches .null = [] ∧ normalizeMatches .undefV = []
    ∧ (∀ x, normalizeMatchesWS x = normSpecWS x)
    ∧ normalizeMatchesWS .null = [] ∧ normalizeMatchesWS .undefV = [] :=
  ⟨normalizeMatches_eq_normSpec, rfl, rfl,
   normalizeMatchesWS_eq_normSpecWS, rfl, rfl⟩

/-- Claim C8: `normalizeMatches` is idempotent — renormalizing its own
output (an array value) returns it unchanged, so
`normalizeMatches (normalizeMatches x) = normalizeMatches x` for every
input, and every already-normalized sequence is returned unchanged. -/
theorem C8_normalize_idempotent :
    (∀ x, normalizeMatches (.arr (normalizeMatches x)) = normalizeMatches x)
    ∧ (∀ l, normalizeMatches (.arr l) = l) :=
  ⟨fun _ => rfl, fun _ => rfl⟩

/-- Claim C7: `buildSourceSummary` maps the empty match sequence to the
empty string (never a header-only block); a non-empty sequence becomes one
header line followed by exactly `min(5, length)` bullet lines; every bullet
excerpt is the first at-most-300 characters of the match text with newlines
replaced by spaces (hence at most 300 characters and newline-free). -/
theorem C7_source_summary_shape :
    (∀ k, buildSourceSummary [] k = "")
    ∧ (∀ ms : List JVal, ms ≠ [] →
        buildSourceSummary ms 5
          = String.intercalate "\n"
              ("Sources retrieved from vector DB:" :: p2Bullets ms 5)
        ∧ (p2Bullets ms 5).length = min 5 ms.length)
    ∧ (∀ m, p2Excerpt m = jsSlice (newlineToSpace (matchTextOf m)) 300
        ∧ (p2Excerpt m).length ≤ 300
        ∧ ∀ c ∈ (p2Excerpt m).data, c ≠ '\n') := by
  refine ⟨fun k => rfl, fun ms h => ⟨?_, ?_⟩, fun m => ⟨rfl, ?_, ?_⟩⟩
  · rw [buildSourceSummary, if_neg (by simpa using h)]
  · simp [p2Bullets, Nat.min_comm]
  · show ((newlineToSpace (matchTextOf m)).data.take 300).length ≤ 300
    exact List.length_take_le 300 _
  · intro c hc
    have h1 : c ∈ (newlineToSpace (matchTextOf m)).data :=
      List.take_subset 300 _ hc
    simp only [newlineToSpace] at h1
    obtain ⟨a, _, rfl⟩ := List.mem_map.mp h1
    by_cases ha : a = '\n' <;> simp [ha]

/-- Claim C7 witness: the shape statement instantiated at a concrete
one-element match list. -/
theorem C7_source_summary_shape_witness :
    buildSourceSummary [JVal.obj []] 5
      = String.intercalate "\n"
          ("Sources retrieved from vector DB:" :: p2Bullets [JVal.obj []] 5)
    ∧ (p2Bullets [JVal.obj []] 5).length = min 5 1 :=
  C7_source_summary_shape.2.1 [JVal.obj []] (by simp)

/-- A benign environment: unflagged verdict, an empty probe result, no
OpenAI key. -/
def envNoMatches : Env :=
  ⟨fun _ => .ok ⟨false, none⟩, fun _ => .ok (.arr []),
   fun _ => .ok (.arr []), "", fun _ => .ok "", "SYS"⟩

/-- An environment whose classifier flags every text with a denial
message. -/
def envFlagged : Env :=
  ⟨fun _ => .ok ⟨true, some "Denied."⟩, fun _ => .ok (.arr []),
   fun _ => .ok (.arr []), "", fun _ => .ok "", "SYS"⟩

/-- An environment whose classifier call throws. -/
def envDown : Env :=
  ⟨fun _ => .error "classifier down", fun _ => .ok (.arr []),
   fun _ => .ok (.arr []), "", fun _ => .ok "", "SYS"⟩

/-- An environment whose probe returns one (arbitrary, scoreless) match. -/
def envOneMatch : Env :=
  ⟨fun _ => .ok ⟨false, none⟩, fun _ => .ok (.arr [.obj []]),
   fun _ => .ok (.arr [.obj []]), "", fun _ => .ok "", "SYS"⟩

/-- A request whose latest user message says `hello`. -/
def msgsHello : List UIMessage := [⟨"user", [.text "hello"]⟩]

/-- A request whose latest user message is a single blank space. -/
def msgsBlank : List UIMessage := [⟨"user", [.text " "]⟩]

/-- Claim C1: when the latest user text is non-empty and the classifier
flags it, the synchronous handler answers a 200 denial payload whose
assistant text is the classifier denialMessage (or the fixed default when it
is absent), with `used_web_search = false`, and with zero vector-retrieval,
web-search and generation invocations; the `part_002` streaming handler
likewise streams only the denial text with zero retrieval and generation
invocations. -/
theorem C1_flagged_denial (env : Env) (msgs : List UIMessage)
    (dm : Option String)
    (hne : msgs ≠ [])
    (ht : latestUserText msgs ≠ "")
    (htr : jsTrim (latestUserText msgs) ≠ "")
    (hc : env.classify (latestUserText msgs) = .ok ⟨true, dm⟩) :
    POST_sync env msgs =
      (.payload 200 ⟨[], dm.getD "Your message was flagged by moderation.",
        false, some "message flagged"⟩, ⟨1, 0, 0, 0⟩)
    ∧ POST_p002 env false msgs =
      (.stream (dm.getD
        "Your message violates our guidelines. I can\x27t answer that."),
       ⟨1, 0, 0, 0⟩) := by
  have hE : msgs.isEmpty = false := by
    cases msgs with
    | nil => exact absurd rfl hne
    | cons a l => rfl
  have hB : (latestUserText msgs == "" || jsTrim (latestUserText msgs) == "")
      = false := by
    simp [ht, htr]
  constructor
  · rw [POST_sync]
    simp only [hE, Bool.false_eq_true, if_false, hB, hc]
    simp
  · rw [POST_p002]
    simp only [hE, Bool.false_eq_true, if_false, hB, hc]
    simp

/-- Claim C1 witness: the denial statement instantiated at a concrete
flagged request. -/
theorem C1_flagged_denial_witness :
    POST_sync envFlagged msgsHello =
      (.payload 200 ⟨[], "Denied.", false, some "message flagged"⟩,
       ⟨1, 0, 0, 0⟩)
    ∧ POST_p002 envFlagged false msgsHello =
      (.stream "Denied.", ⟨1, 0, 0, 0⟩) :=
  C1_flagged_denial envFlagged msgsHello (some "Denied.")
    (List.cons_ne_nil _ _) (by decide) (by decide) rfl

/-- Claim C2 counterexample: on a request whose probe normalizes to zero
matches, the synchronous handler sets `used_web_search = true` but performs
ZERO web-search invocations (not exactly one) — its own fallback text even
says no web results were requested. -/
theorem C2_web_never_invoked_cex :
    POST_sync envNoMatches msgsHello =
      (.payload 200 ⟨[],
        "I couldn\x27t find relevant documents in the vector DB. Web search is enabled as a fallback, but no web results were requested in this synchronous endpoint.",
        true, none⟩, ⟨1, 1, 0, 0⟩)
    ∧ (POST_sync envNoMatches msgsHello).2.web = 0
    ∧ (POST_sync envNoMatches msgsHello).2.web ≠ 1 :=
  ⟨rfl, rfl, by decide⟩

/-- Claim C2 as amended: when the probe yields zero normalized matches the
synchronous handler answers with `used_web_search = true` and zero
web-search invocations, and the first streaming handler merely adds the
`webSearch` tool name to the tool set offered to the generator — neither
handler itself ever calls the web-search collaborator. -/
theorem C2_empty_probe_amended :
    (∀ (env : Env) (msgs : List UIMessage) (dm : Option String) (v : JVal),
      msgs ≠ [] →
      latestUserText msgs ≠ "" →
      jsTrim (latestUserText msgs) ≠ "" →
      env.classify (latestUserText msgs) = .ok ⟨false, dm⟩ →
      env.vecExecute (probeRecord (latestUserText msgs)) = .ok v →
      normalizeMatches v = [] →
      ∃ txt, POST_sync env msgs =
        (.payload 200 ⟨[], txt, true, none⟩,
         ⟨1, 1, 0, if env.openaiKey == "" then 0 else 1⟩))
    ∧ (∀ (env : Env) (msgs : List UIMessage) (dm : Option String),
      latestUserText msgs ≠ "" →
      env.classify (latestUserText msgs) = .ok ⟨false, dm⟩ →
      env.probeCall (latestUserText msgs) = .ok (.arr []) →
      POST_stream env msgs =
        (.ok (.gen msgs ["vectorDatabaseSearch", "webSearch"]),
         ⟨1, 1, 0, 1⟩)) := by
  constructor
  · intro env msgs dm v hne ht htr hc hv hn
    have hE : msgs.isEmpty = false := by
      cases msgs with
      | nil => exact absurd rfl hne
      | cons a l => rfl
    have hB : (latestUserText msgs == ""
        || jsTrim (latestUserText msgs) == "") = false := by
      simp [ht, htr]
    rw [POST_sync]
    simp only [hE, Bool.false_eq_true, if_false, hB, hc]
    rw [POST_sync_rest]
    simp only [hv, hn]
    exact ⟨_, rfl⟩
  · intro env msgs dm ht hc hp
    rw [POST_stream]
    have hB : (latestUserText msgs == "") = false := by simp [ht]
    simp only [hB, Bool.false_eq_true, if_false, hc, hp]
    simp [jsLenIsZero, JVal.truthy]

/-- Claim C2 amended witness: both conjuncts instantiated at a concrete
empty-probe request. -/
theorem C2_empty_probe_amended_witness :
    (∃ txt, POST_sync envNoMatches msgsHello =
      (.payload 200 ⟨[], txt, true, none⟩, ⟨1, 1, 0, 0⟩))
    ∧ POST_stream envNoMatches msgsHello =
      (.ok (.gen msgsHello ["vectorDatabaseSearch", "webSearch"]),
       ⟨1, 1, 0, 1⟩) :=
  ⟨C2_empty_probe_amended.1 envNoMatches msgsHello none (.arr [])
      (List.cons_ne_nil _ _) (by decide) (by decide) rfl rfl rfl,
   C2_empty_probe_amended.2 envNoMatches msgsHello none (by decide) rfl rfl⟩

/-- Claim C3: whenever the probe yields at least one match, the web-search
collaborator is never invoked — the synchronous and `part_002` handlers
never call it on ANY path (their `web` call count is identically zero), and
the first streaming handler then hands the generator a tool set WITHOUT
`webSearch`; no score is ever consulted (the match list is arbitrary). -/
theorem C3_matches_suppress_web (env : Env) (dbg : Bool)
    (msgs : List UIMessage) (dm : Option String) (l : List JVal)
    (ht : latestUserText msgs ≠ "")
    (hc : env.classify (latestUserText msgs) = .ok ⟨false, dm⟩)
    (hp : env.probeCall (latestUserText msgs) = .ok (.arr l))
    (hl : l ≠ []) :
    (POST_sync env msgs).2.web = 0
    ∧ (POST_p002 env dbg msgs).2.web = 0
    ∧ POST_stream env msgs =
        (.ok (.gen msgs ["vectorDatabaseSearch"]), ⟨1, 1, 0, 1⟩)
    ∧ "webSearch" ∉ ["vectorDatabaseSearch"] := by
  refine ⟨?_, ?_, ?_, by decide⟩
  · simp only [POST_sync, POST_sync_rest]
    repeat' split
    all_goals rfl
  · simp only [POST_p002, POST_p002_rest]
    repeat' split
    all_goals rfl
  · rw [POST_stream]
    have hB : (latestUserText msgs == "") = false := by simp [ht]
    simp only [hB, Bool.false_eq_true, if_false, hc, hp]
    have hL : l.isEmpty = false := by
      cases l with
      | nil => exact absurd rfl hl
      | cons a t => rfl
    simp [jsLenIsZero, JVal.truthy, hL]

/-- Claim C3 witness: instantiated at a request whose probe returns one
match. -/
theorem C3_matches_suppress_web_witness :
    (POST_sync envOneMatch msgsHello).2.web = 0
    ∧ (POST_p002 envOneMatch false msgsHello).2.web = 0
    ∧ POST_stream envOneMatch msgsHello =
        (.ok (.gen msgsHello ["vectorDatabaseSearch"]), ⟨1, 1, 0, 1⟩)
    ∧ "webSearch" ∉ ["vectorDatabaseSearch"] :=
  C3_matches_suppress_web envOneMatch false msgsHello none [.obj []]
    (by decide) rfl rfl (List.cons_ne_nil _ _)

/-- Claim C4 counterexample: the first streaming handler does not guard its
moderation call, so a thrown classifier call terminates the request as a
propagated exception — retrieval and generation are never reached and the
user receives no answer. -/
theorem C4_unguarded_moderation_cex :
    POST_stream envDown msgsHello = (.error "classifier down", ⟨1, 0, 0, 0⟩)
    ∧ (POST_stream envDown msgsHello).2.vector = 0
    ∧ (POST_stream envDown msgsHello).2.generation = 0 :=
  ⟨rfl, rfl, rfl⟩

/-- Claim C4 as amended: in the synchronous handler and in the `part_002`
streaming handler a thrown classifier call is caught and the request runs
EXACTLY as if the verdict were unflagged (the whole outcome, call counts
included, coincides with the unflagged run); on a well-formed request the
synchronous handler then still reaches retrieval (one vector call) and
answers a 200 payload.  The first streaming handler, by contrast, lets the
exception propagate (see the counterexample). -/
theorem C4_classifier_failure_amended :
    (∀ (env : Env) (msgs : List UIMessage) (e : String),
      POST_sync (withClassify env (fun _ => .error e)) msgs
        = POST_sync (withClassify env (fun _ => .ok ⟨false, none⟩)) msgs)
    ∧ (∀ (env : Env) (dbg : Bool) (msgs : List UIMessage) (e : String),
      POST_p002 (withClassify env (fun _ => .error e)) dbg msgs
        = POST_p002 (withClassify env (fun _ => .ok ⟨false, none⟩)) dbg msgs)
    ∧ (∀ (env : Env) (msgs : List UIMessage) (e : String),
      msgs ≠ [] →
      latestUserText msgs ≠ "" →
      jsTrim (latestUserText msgs) ≠ "" →
      ∃ p, POST_sync (withClassify env (fun _ => .error e)) msgs
        = (.payload 200 p,
           ⟨1, 1, 0, if env.openaiKey == "" then 0 else 1⟩)) := by
  refine ⟨fun env msgs e => rfl, fun env dbg msgs e => rfl, ?_⟩
  intro env msgs e hne ht htr
  have hE : msgs.isEmpty = false := by
    cases msgs with
    | nil => exact absurd rfl hne
    | cons a l => rfl
  have hB : (latestUserText msgs == "" || jsTrim (latestUserText msgs) == "")
      = false := by
    simp [ht, htr]
  rw [POST_sync]
  simp only [hE, Bool.false_eq_true, if_false, hB]
  rw [POST_sync_rest]
  exact ⟨_, rfl⟩

/-- Claim C4 amended witness: the third conjunct instantiated at a concrete
request with a throwing classifier. -/
theorem C4_classifier_failure_amended_witness :
    ∃ p, POST_sync (withClassify envNoMatches (fun _ => .error "boom"))
        msgsHello = (.payload 200 p, ⟨1, 1, 0, 0⟩) :=
  C4_classifier_failure_amended.2.2 envNoMatches msgsHello "boom"
    (List.cons_ne_nil _ _) (by decide) (by decide)

/-- Claim C5 counterexample: on a non-empty message list whose latest user
text is blank, the synchronous handler answers an ERROR-status response —
status 400 with a bare error body — not a success response with explanatory
assistant text. -/
theorem C5_blank_text_error_status_cex :
    POST_sync envNoMatches msgsBlank
      = (.errResp 400 "No user text provided in latest message",
         ⟨0, 0, 0, 0⟩)
    ∧ (POST_sync envNoMatches msgsBlank).1.isErr = true :=
  ⟨rfl, rfl⟩

/-- Claim C5 as amended: only the `part_002` streaming handler treats blank
latest user text as benign — it answers a success stream whose text explains
that no user text was received (never an error-status response); the
synchronous handler instead reports the same condition as a 400 error. -/
theorem C5_no_user_text_amended :
    (∀ (env : Env) (msgs : List UIMessage),
      msgs ≠ [] →
      (latestUserText msgs = "" ∨ jsTrim (latestUserText msgs) = "") →
      POST_p002 env false msgs
        = (.stream "No user text received in the latest message.",
           ⟨0, 0, 0, 0⟩)
      ∧ (POST_p002 env false msgs).1.isErr = false)
    ∧ (∀ (env : Env) (msgs : List UIMessage),
      msgs ≠ [] →
      (latestUserText msgs = "" ∨ jsTrim (latestUserText msgs) = "") →
      POST_sync env msgs
        = (.errResp 400 "No user text provided in latest message",
           ⟨0, 0, 0, 0⟩)) := by
  have hcond : ∀ msgs : List UIMessage,
      (latestUserText msgs = "" ∨ jsTrim (latestUserText msgs) = "") →
      (latestUserText msgs == "" || jsTrim (latestUserText msgs) == "")
        = true := by
    intro msgs h
    rcases h with h | h <;> simp [h]
  constructor
  · intro env msgs hne hb
    have hE : msgs.isEmpty = false := by
      cases msgs with
      | nil => exact absurd rfl hne
      | cons a l => rfl
    constructor
    · rw [POST_p002]
      simp only [hE, Bool.false_eq_true, if_false, hcond msgs hb, if_true]
    · rw [POST_p002]
      simp only [hE, Bool.false_eq_true, if_false, hcond msgs hb, if_true]
      rfl
  · intro env msgs hne hb
    have hE : msgs.isEmpty = false := by
      cases msgs with
      | nil => exact absurd rfl hne
      | cons a l => rfl
    rw [POST_sync]
    simp only [hE, Bool.false_eq_true, if_false, hcond msgs hb, if_true]

/-- Claim C5 amended witness: both conjuncts instantiated at a concrete
blank-text request. -/
theorem C5_no_user_text_amended_witness :
    (POST_p002 envNoMatches false msgsBlank
        = (.stream "No user text received in the latest message.",
           ⟨0, 0, 0, 0⟩)
      ∧ (POST_p002 envNoMatches false msgsBlank).1.isErr = false)
    ∧ POST_sync envNoMatches msgsBlank
        = (.errResp 400 "No user text provided in latest message",
           ⟨0, 0, 0, 0⟩) :=
  ⟨C5_no_user_text_amended.1 envNoMatches msgsBlank (List.cons_ne_nil _ _)
      (Or.inr (by decide)),
   C5_no_user_text_amended.2 envNoMatches msgsBlank (List.cons_ne_nil _ _)
      (Or.inr (by decide))⟩

/-- Claim C9: both `searchPinecone` variants return the empty match list
immediately when the embedding credential (`COHERE_API_KEY`, respectively
`OPENAI_API_KEY`, defaulted to the empty string) is absent — zero embedding
calls and zero vector-index queries, and no error. -/
theorem C9_missing_embed_credential (env : PineEnv) (q : String)
    (tk : Option Nat) (ns : Option String) :
    searchPineconeCohere "" env q tk ns = ([], ⟨0, 0⟩)
    ∧ searchPineconeOpenAI "" env q tk ns = ([], ⟨0, 0⟩) :=
  ⟨rfl, rfl⟩

/-- Claim C10: the `execute` closure `makeToolLike` wraps around a plain
function never rejects — it resolves for every input, and if the wrapped
function throws it resolves to the empty array; a value already exposing an
`execute` method is returned unchanged, and a plain function becomes an
`execute`-bearing object. -/
theorem C10_wrapper_never_rejects (f : JVal → JVal → Except String JVal)
    (input : JVal) :
    (∃ v, wrappedExec f input = .ok v)
    ∧ (∀ e, f (toolQuery input) input = .error e →
        wrappedExec f input = .ok (.arr []))
    ∧ (∀ exec, makeToolLike (.toolObj exec) = some (.toolObj exec))
    ∧ makeToolLike (.fn f) = some (.toolObj (wrappedExec f)) := by
  refine ⟨?_, ?_, fun _ => rfl, rfl⟩
  · rw [wrappedExec]
    cases h : f (toolQuery input) input <;> exact ⟨_, rfl⟩
  · intro e he
    rw [wrappedExec, he]

/-- Claim C10 witness: a function that always throws, wrapped and run on a
concrete input, resolves to the empty array. -/
theorem C10_wrapper_never_rejects_witness :
    wrappedExec (fun _ _ => .error "boom") (JVal.obj [])
      = .ok (.arr []) :=
  (C10_wrapper_never_rejects (fun _ _ => .error "boom")
    (JVal.obj [])).2.1 "boom" rfl
